import Mathlib

/-!
# Verification of the ProteinOS voice-enabled chat session controller

This file gives a shallow embedding of the session controller implemented in
`src/hooks/use-chatbot.tsx` and of the submission/capture entry points of
`src/components/ChatBot.tsx`, and proves (or refutes) the specification
claims about it.

## Modelling conventions

* React component state (`messages`, `isLoading`, `isListening`, `apiKey`)
  together with the mutable refs (`audioRef`, `recognitionRef`) and the raised
  toast notifications form one record, `SessionState`.  `setXxx` calls are
  modelled as immediate functional state updates, in the textual order the
  source performs them.
* `HTMLAudioElement` objects are modelled by numeric ids allocated from the
  `nextAudio` counter; `audioRef.current` is an `Option Nat`.
* Each operation returns the new state together with the ordered list of
  external `Event`s it performs (audio pause/install/play, network requests,
  recognition start/stop, toasts), so temporal ordering claims can be stated
  on the event trace.
* `async` functions are split at their `await` suspension points into an
  issue phase and a resolve phase: `speakMessage` into `speakMessageIssue`
  (everything before the `fetch` response arrives) and `speakMessageResolve`
  (everything after), and `sendMessage` into `sendMessageStart` (the prefix
  up to and including the `chatbotResponse` call) and `sendMessageSettle`
  (the continuation once the reply promise settles).  Interleavings are
  expressed by running other operations between the phases.
* The reply source `chatbotResponse` is an external collaborator; its
  settlement is an oracle parameter `outcome : Option String` (`some reply`
  for a resolution, `none` for a rejection), and the synthesis fetch outcome
  is a `Bool` (`true` for a 2xx response whose audio plays, `false` for a
  failed request or playback).
-/

/-- Author of a chat turn: `sender: 'bot' | 'user'` in `use-chatbot.tsx`. -/
inductive Sender where
  | bot
  | user
deriving DecidableEq

/-- One transcript turn, `ChatMessage` in `use-chatbot.tsx`
(`content`, `sender`, `timestamp: Date`); the timestamp is a `Nat` tick. -/
structure ChatMessage where
  content : String
  sender : Sender
  timestamp : Nat
deriving DecidableEq

/-- The state owned by the `useChatBot` hook: the four `useState` cells,
the two refs, the toasts raised so far, and a clock supplying `new Date()`.
`recognitionAvailable` records whether the setup effect found a platform
`SpeechRecognition` facility and filled `recognitionRef`. -/
structure SessionState where
  messages : List ChatMessage
  isLoading : Bool
  isListening : Bool
  apiKey : String
  audioRef : Option Nat
  nextAudio : Nat
  recognitionAvailable : Bool
  toasts : List String
  now : Nat
deriving DecidableEq

/-- Externally observable primitive actions, in the order the code performs
them, used to state temporal-ordering properties. -/
inductive Event where
  | appendMsg (m : ChatMessage)
  | setLoading (b : Bool)
  | setListening (b : Bool)
  | pauseAudio (id : Nat)
  | issueSynthesis (text : String)
  | installAudio (id : Nat)
  | playAudio (id : Nat)
  | issueReply (text : String)
  | listenStart
  | listenStop
  | toast (title : String)
deriving DecidableEq

/-- Model of `stopSpeaking` (use-chatbot.tsx:60-65): if `audioRef.current` is set,
pause it and null the ref; otherwise do nothing. -/
def stopSpeaking (st : SessionState) : SessionState × List Event :=
  match st.audioRef with
  | some id => ({ st with audioRef := none }, [Event.pauseAudio id])
  | none => (st, [])

/-- Model of `speakMessage` (use-chatbot.tsx:68-90), the phase before the `fetch`
response arrives: return immediately if `apiKey` is falsy, otherwise call
`stopSpeaking()` and issue the text-to-speech request. -/
def speakMessageIssue (text : String) (st : SessionState) :
    SessionState × List Event :=
  if st.apiKey = "" then (st, [])
  else
    let p := stopSpeaking st
    (p.1, p.2 ++ [Event.issueSynthesis text])

/-- Model of `speakMessage` (use-chatbot.tsx:92-111), the continuation once the
`fetch` settles: on a 2xx response a fresh `Audio` object is created,
installed as `audioRef.current` and played; on a failed request or playback
the catch block raises the "Voice Playback Error" toast.  Note the source
performs no staleness check here: the continuation runs the same way even if
`stopSpeaking` was called while the request was in flight. -/
def speakMessageResolve (ok : Bool) (st : SessionState) :
    SessionState × List Event :=
  if ok then
    let id := st.nextAudio
    ({ st with audioRef := some id, nextAudio := id + 1 },
      [Event.installAudio id, Event.playAudio id])
  else
    ({ st with toasts := st.toasts ++ ["Voice Playback Error"] },
      [Event.toast "Voice Playback Error"])

/-- Model of the `audio.onended` handler (use-chatbot.tsx:100-102): clears
`audioRef.current` when playback completes naturally. -/
def audioOnEnded (st : SessionState) : SessionState × List Event :=
  ({ st with audioRef := none }, [])

/-- The greeting text of use-chatbot.tsx:120. -/
def greetingText : String :=
  "Hello, I am BioBuddy, and I\x27m here to assist you. Feel free to ask me anything related to protein synthesis!"

/-- The greeting effect (use-chatbot.tsx:115-136), run whenever
`messages.length` or `apiKey` changes: when the transcript is empty it
installs the greeting turn and speaks it if an API key is present
(`canSpeak`); otherwise, when a key is present, exactly one message exists
and no audio object is current, it re-speaks that first message. -/
def greetingEffect (st : SessionState) : SessionState × List Event :=
  if st.messages.length = 0 then
    let m : ChatMessage := ⟨greetingText, Sender.bot, st.now⟩
    let st1 := { st with messages := [m] }
    if st.apiKey = "" then (st1, [Event.appendMsg m])
    else
      let p := speakMessageIssue greetingText st1
      (p.1, Event.appendMsg m :: p.2)
  else if st.apiKey ≠ "" ∧ st.messages.length = 1 ∧ st.audioRef = none then
    match st.messages with
    | [] => (st, [])
    | m :: _ => speakMessageIssue m.content st
  else (st, [])

/-- The fixed apology text of use-chatbot.tsx:194. -/
def errorMessage : String :=
  "I\x27m sorry, I couldn\x27t process your request at the moment. Please try again later."

/-- Model of `sendMessage` (use-chatbot.tsx:159-177), the prefix before the reply
promise settles: append the USER turn, set `isLoading`, call
`stopSpeaking()`, then (after the one-second delay) call
`chatbotResponse(userMessage)`.  There is no emptiness or loading guard in
this function. -/
def sendMessageStart (userMessage : String) (st : SessionState) :
    SessionState × List Event :=
  let m : ChatMessage := ⟨userMessage, Sender.user, st.now⟩
  let st1 := { st with messages := st.messages ++ [m] }
  let st2 := { st1 with isLoading := true }
  let p := stopSpeaking st2
  (p.1, Event.appendMsg m :: Event.setLoading true :: p.2
        ++ [Event.issueReply userMessage])

/-- Model of `sendMessage` (use-chatbot.tsx:177-210), the continuation once
`chatbotResponse` settles: on resolution append the reply as an ASSISTANT
turn, on rejection append the fixed apology text; in both branches speak the
appended text when an API key is present (only the issue phase happens
synchronously), and `finally` clear `isLoading`. -/
def sendMessageSettle (outcome : Option String) (st : SessionState) :
    SessionState × List Event :=
  let botReply := match outcome with
    | some reply => reply
    | none => errorMessage
  let m : ChatMessage := ⟨botReply, Sender.bot, st.now⟩
  let st1 := { st with messages := st.messages ++ [m] }
  let p := if st.apiKey = "" then (st1, ([] : List Event))
           else speakMessageIssue botReply st1
  ({ p.1 with isLoading := false },
    Event.appendMsg m :: p.2 ++ [Event.setLoading false])

/-- A whole `sendMessage` run with no interposed operations: the start
phase followed by the settlement of the reply promise with `outcome`. -/
def sendMessage (userMessage : String) (outcome : Option String)
    (st : SessionState) : SessionState × List Event :=
  let p1 := sendMessageStart userMessage st
  let p2 := sendMessageSettle outcome p1.1
  (p2.1, p1.2 ++ p2.2)

/-- Model of `startListening` (use-chatbot.tsx:139-150): when a recognition facility
exists, call `stopSpeaking()`, set `isListening`, and start the recognizer;
otherwise raise the "Voice Input Not Available" toast. -/
def startListening (st : SessionState) : SessionState × List Event :=
  if st.recognitionAvailable then
    let p := stopSpeaking st
    ({ p.1 with isListening := true },
      p.2 ++ [Event.setListening true, Event.listenStart])
  else
    ({ st with toasts := st.toasts ++ ["Voice Input Not Available"] },
      [Event.toast "Voice Input Not Available"])

/-- Model of `stopListening` (use-chatbot.tsx:152-157): when a recognition facility
exists and the session is listening, clear `isListening` and stop the
recognizer. -/
def stopListening (st : SessionState) : SessionState × List Event :=
  if st.recognitionAvailable ∧ st.isListening then
    ({ st with isListening := false },
      [Event.setListening false, Event.listenStop])
  else (st, [])

/-- Model of the `recognition.onend` handler (use-chatbot.tsx:36-38). -/
def recognitionOnEnd (st : SessionState) : SessionState × List Event :=
  ({ st with isListening := false }, [Event.setListening false])

/-- Model of the `recognition.onerror` handler (use-chatbot.tsx:40-47): clear
`isListening` and raise the "Voice Recognition Error" toast. -/
def recognitionOnError (st : SessionState) : SessionState × List Event :=
  ({ st with isListening := false,
             toasts := st.toasts ++ ["Voice Recognition Error"] },
    [Event.setListening false, Event.toast "Voice Recognition Error"])

/-- Model of the `recognition.onresult` handler (use-chatbot.tsx:31-34): invokes
`sendMessage` directly on the recognized utterance, with no guard. -/
def recognitionOnResult (utterance : String) (outcome : Option String)
    (st : SessionState) : SessionState × List Event :=
  sendMessage utterance outcome st

/-- Model of `setApiKey` (the `useState` setter exposed by the hook). -/
def setApiKey (k : String) (st : SessionState) : SessionState × List Event :=
  ({ st with apiKey := k }, [])

/-! ## The `ChatBot.tsx` component layer -/

/-- Model of JavaScript `String.prototype.trim`: remove leading and
trailing whitespace characters. -/
def jsTrim (s : String) : String :=
  ⟨((s.data.dropWhile fun c => c.isWhitespace).reverse.dropWhile
      fun c => c.isWhitespace).reverse⟩

/-- Component-local state of `ChatBot.tsx` that the claims touch: the
controlled text `message` of the input field, alongside the session. -/
structure ComponentState where
  session : SessionState
  message : String
deriving DecidableEq

/-- Model of `handleSend` (ChatBot.tsx:53-58): when the trimmed input is non-empty,
pass the untrimmed `message` to `sendMessage` and clear the field;
otherwise do nothing. -/
def handleSend (outcome : Option String) (cs : ComponentState) :
    ComponentState × List Event :=
  if jsTrim cs.message ≠ "" then
    let p := sendMessage cs.message outcome cs.session
    ({ session := p.1, message := "" }, p.2)
  else (cs, [])

/-- The `disabled` condition of the Send button
(ChatBot.tsx:280, `disabled=\x7b!message.trim() || isLoading\x7d`). -/
def sendButtonDisabled (cs : ComponentState) : Prop :=
  jsTrim cs.message = "" ∨ cs.session.isLoading = true

instance (cs : ComponentState) : Decidable (sendButtonDisabled cs) := by
  unfold sendButtonDisabled; infer_instance

/-- A click on the Send button: the browser delivers the click (running
`handleSend`) only when the button is not disabled. -/
def sendClick (outcome : Option String) (cs : ComponentState) :
    ComponentState × List Event :=
  if sendButtonDisabled cs then (cs, []) else handleSend outcome cs

/-- The `disabled` condition of the text input
(ChatBot.tsx:252, `disabled=\x7bisLoading || isListening\x7d`). -/
def inputDisabled (cs : ComponentState) : Prop :=
  cs.session.isLoading = true ∨ cs.session.isListening = true

instance (cs : ComponentState) : Decidable (inputDisabled cs) := by
  unfold inputDisabled; infer_instance

/-- Pressing Enter in the input (ChatBot.tsx:60-64 `handleKeyDown`): a
disabled input receives no key events; otherwise `handleSend` runs. -/
def inputEnterKey (outcome : Option String) (cs : ComponentState) :
    ComponentState × List Event :=
  if inputDisabled cs then (cs, []) else handleSend outcome cs

/-- The `disabled` condition of the microphone button
(ChatBot.tsx:261, `disabled=\x7bisLoading || !apiKey\x7d`). -/
def micButtonDisabled (cs : ComponentState) : Prop :=
  cs.session.isLoading = true ∨ cs.session.apiKey = ""

instance (cs : ComponentState) : Decidable (micButtonDisabled cs) := by
  unfold micButtonDisabled; infer_instance

/-- A click on the microphone button (ChatBot.tsx:254-275): delivered only
when enabled; runs `stopListening` when listening, else `startListening`. -/
def micClick (cs : ComponentState) : ComponentState × List Event :=
  if micButtonDisabled cs then (cs, [])
  else if cs.session.isListening then
    let p := stopListening cs.session
    ({ cs with session := p.1 }, p.2)
  else
    let p := startListening cs.session
    ({ cs with session := p.1 }, p.2)

/-! ## Helper lemmas -/

theorem stopSpeaking_fst (st : SessionState) :
    (stopSpeaking st).1 = { st with audioRef := none } := by
  obtain ⟨ms, ld, ls, key, aref, na, ra, ts, n⟩ := st
  cases aref <;> rfl

theorem speakMessageIssue_fst (text : String) (st : SessionState)
    (h : st.apiKey ≠ "") :
    (speakMessageIssue text st).1 = { st with audioRef := none } := by
  unfold speakMessageIssue
  simp [h, stopSpeaking_fst]

theorem speakMessageIssue_msgs (text : String) (st : SessionState) :
    (speakMessageIssue text st).1.messages = st.messages := by
  unfold speakMessageIssue
  by_cases h : st.apiKey = "" <;> simp [h, stopSpeaking_fst]

theorem sendMessage_msgs (t : String) (o : Option String) (st : SessionState) :
    (sendMessage t o st).1.messages
      = st.messages ++ [⟨t, Sender.user, st.now⟩,
                        ⟨o.getD errorMessage, Sender.bot, st.now⟩] := by
  unfold sendMessage sendMessageStart sendMessageSettle
  cases o <;>
    by_cases h : st.apiKey = "" <;>
      simp [h, stopSpeaking_fst, speakMessageIssue_msgs]

/-- Number of turns in a transcript authored by a given speaker. -/
def countSender (s : Sender) (l : List ChatMessage) : Nat :=
  (l.filter fun m => m.sender = s).length

theorem countSender_append (s : Sender) (l1 l2 : List ChatMessage) :
    countSender s (l1 ++ l2) = countSender s l1 + countSender s l2 := by
  unfold countSender
  simp [List.filter_append]

/-! ## Concrete states used by witnesses and counterexamples -/

/-- A freshly mounted session before the greeting effect has run. -/
def g0 : SessionState :=
  { messages := [], isLoading := false, isListening := false, apiKey := "",
    audioRef := none, nextAudio := 0, recognitionAvailable := true,
    toasts := [], now := 0 }

/-- A session holding only the greeting, no credential, recognition
available. -/
def noKeyState : SessionState :=
  { messages := [⟨greetingText, Sender.bot, 0⟩], isLoading := false,
    isListening := false, apiKey := "", audioRef := none, nextAudio := 0,
    recognitionAvailable := true, toasts := [], now := 5 }

/-- A session holding only the greeting, with a credential and no current
audio. -/
def keyState : SessionState :=
  { messages := [⟨greetingText, Sender.bot, 0⟩], isLoading := false,
    isListening := false, apiKey := "k", audioRef := none, nextAudio := 7,
    recognitionAvailable := true, toasts := [], now := 6 }

/-- A session with a credential whose synthesis playback is in progress
(`audioRef.current` holds audio object 0). -/
def speakingState : SessionState :=
  { messages := [⟨greetingText, Sender.bot, 0⟩], isLoading := false,
    isListening := false, apiKey := "k", audioRef := some 0, nextAudio := 1,
    recognitionAvailable := true, toasts := [], now := 4 }

/-- A session in the LOADING state (a reply request outstanding) which is
also still listening. -/
def loadingState : SessionState :=
  { messages := [⟨greetingText, Sender.bot, 0⟩], isLoading := true,
    isListening := true, apiKey := "", audioRef := none, nextAudio := 0,
    recognitionAvailable := true, toasts := [], now := 3 }

/-! ## Claim C9 -/

/-- C9: `stopSpeaking` only releases the audio playback handle: for every
session state it clears `audioRef` and leaves the transcript, the listening
flag, the loading flag and the credential unchanged. -/
theorem stopSpeaking_frame (st : SessionState) :
    (stopSpeaking st).1.audioRef = none ∧
    (stopSpeaking st).1.messages = st.messages ∧
    (stopSpeaking st).1.isListening = st.isListening ∧
    (stopSpeaking st).1.isLoading = st.isLoading ∧
    (stopSpeaking st).1.apiKey = st.apiKey ∧
    (stopSpeaking st).1.toasts = st.toasts := by
  simp [stopSpeaking_fst]

/-! ## Claim C3 -/

/-- C3: every accepted submission appends, once the Reply Source settles,
exactly one ASSISTANT turn — the reply on resolution, the fixed apology on
rejection — so each run of `sendMessage` adds exactly one USER and exactly
one ASSISTANT turn to the transcript. -/
theorem sendMessage_exactly_one_assistant (t : String) (o : Option String)
    (st : SessionState) :
    (sendMessage t o st).1.messages
      = st.messages ++ [⟨t, Sender.user, st.now⟩,
                        ⟨o.getD errorMessage, Sender.bot, st.now⟩] ∧
    countSender Sender.bot (sendMessage t o st).1.messages
      = countSender Sender.bot st.messages + 1 ∧
    countSender Sender.user (sendMessage t o st).1.messages
      = countSender Sender.user st.messages + 1 := by
  refine ⟨sendMessage_msgs t o st, ?_, ?_⟩ <;>
    simp [sendMessage_msgs, countSender_append, countSender]

/-! ## Claim C10 -/

/-- C10: an accepted submission stores the user's text verbatim: when the
trimmed input is non-empty, `handleSend` passes the untrimmed `message`
through, and the appended USER turn's content is exactly that string. -/
theorem handleSend_verbatim (o : Option String) (cs : ComponentState)
    (h : jsTrim cs.message ≠ "") :
    (handleSend o cs).1.session.messages
      = cs.session.messages
        ++ [⟨cs.message, Sender.user, cs.session.now⟩,
            ⟨o.getD errorMessage, Sender.bot, cs.session.now⟩] := by
  unfold handleSend
  simp [h, sendMessage_msgs]

/-- Witness for C10 at a concrete padded input: the stored content keeps
the surrounding whitespace. -/
theorem handleSend_verbatim_witness :
    jsTrim "  hi  " ≠ "" ∧
    (handleSend (some "yo") ⟨noKeyState, "  hi  "⟩).1.session.messages
      = noKeyState.messages
        ++ [⟨"  hi  ", Sender.user, noKeyState.now⟩,
            ⟨(some "yo").getD errorMessage, Sender.bot, noKeyState.now⟩] :=
  ⟨by decide, handleSend_verbatim (some "yo") ⟨noKeyState, "  hi  "⟩ (by decide)⟩

/-! ## Claim C2 -/

/-- C2 counterexample: `sendMessage` itself performs no loading guard.
Invoked while the session is LOADING — exactly what the speech-recognition
`onresult` handler does — it appends to the transcript and invokes the
Reply Source again, so it is not a no-op when already loading. -/
theorem sendMessage_not_rejected_when_loading :
    loadingState.isLoading = true ∧
    (recognitionOnResult "hi" (some "reply") loadingState).1.messages
      ≠ loadingState.messages ∧
    Event.issueReply "hi"
      ∈ (recognitionOnResult "hi" (some "reply") loadingState).2 := by
  decide

/-- C2 amended: the rejection of empty-trimmed or concurrent submissions is
enforced by the presentation layer, not by `sendMessage`: when the trimmed
input is empty or the session is loading, both typed submission paths (the
Send button click, whose button is disabled while loading, and the Enter
key, whose input is disabled while loading or listening; `handleSend`
discards empty-trim input on both) leave the state unchanged and perform no
action. -/
theorem typedSubmit_rejected (o : Option String) (cs : ComponentState)
    (h : jsTrim cs.message = "" ∨ cs.session.isLoading = true) :
    sendClick o cs = (cs, []) ∧ inputEnterKey o cs = (cs, []) := by
  constructor
  · unfold sendClick
    have hd : sendButtonDisabled cs := h
    simp [hd]
  · unfold inputEnterKey
    by_cases hi : inputDisabled cs
    · simp [hi]
    · have hl : cs.session.isLoading ≠ true := fun hc => hi (Or.inl hc)
      have ht : jsTrim cs.message = "" := h.resolve_right hl
      simp [hi, handleSend, ht]

/-- Witness for the amended C2 at a whitespace-only concrete input. -/
theorem typedSubmit_rejected_witness :
    (jsTrim "   " = "" ∨ noKeyState.isLoading = true) ∧
    (sendClick (some "r") ⟨noKeyState, "   "⟩ = (⟨noKeyState, "   "⟩, []) ∧
     inputEnterKey (some "r") ⟨noKeyState, "   "⟩ = (⟨noKeyState, "   "⟩, [])) :=
  ⟨Or.inl (by decide),
   typedSubmit_rejected (some "r") ⟨noKeyState, "   "⟩ (Or.inl (by decide))⟩

/-! ## Claim C5 -/

/-- Index of the first occurrence of an event in a trace (length of the
trace when absent). -/
def firstIndexOf (e : Event) : List Event → Nat
  | [] => 0
  | x :: xs => if x = e then 0 else firstIndexOf e xs + 1

/-- C5 counterexample: submitting text while synthesis playback is in
progress appends the USER turn first and only then cancels the playback:
in the transition's action sequence the append strictly precedes the
pause, refuting the claimed cancel-then-append ordering. -/
theorem sendMessage_append_before_cancel :
    speakingState.audioRef = some 0 ∧
    Event.pauseAudio 0 ∈ (sendMessageStart "x" speakingState).2 ∧
    Event.appendMsg ⟨"x", Sender.user, 4⟩
      ∈ (sendMessageStart "x" speakingState).2 ∧
    ¬ (firstIndexOf (Event.pauseAudio 0) (sendMessageStart "x" speakingState).2
        < firstIndexOf (Event.appendMsg ⟨"x", Sender.user, 4⟩)
            (sendMessageStart "x" speakingState).2) := by
  decide

/-- C5 amended: submitting text while synthesis playback is in progress
cancels the playback within the same `sendMessage` transition, but after
the USER turn is appended; by the end of the synchronous prefix — and in
particular before the Reply Source call is issued and before any later step
of the submission — the audio handle is released. -/
theorem sendMessage_cancels_after_append (t : String) (st : SessionState)
    (a : Nat) (h : st.audioRef = some a) :
    (sendMessageStart t st).1.audioRef = none ∧
    (sendMessageStart t st).2
      = [Event.appendMsg ⟨t, Sender.user, st.now⟩, Event.setLoading true,
         Event.pauseAudio a, Event.issueReply t] := by
  unfold sendMessageStart stopSpeaking
  simp [h]

/-- Witness for the amended C5 at the concrete speaking state. -/
theorem sendMessage_cancels_after_append_witness :
    speakingState.audioRef = some 0 ∧
    ((sendMessageStart "x" speakingState).1.audioRef = none ∧
     (sendMessageStart "x" speakingState).2
       = [Event.appendMsg ⟨"x", Sender.user, speakingState.now⟩,
          Event.setLoading true, Event.pauseAudio 0,
          Event.issueReply "x"]) :=
  ⟨by decide, sendMessage_cancels_after_append "x" speakingState 0 (by decide)⟩

/-! ## Claim C6 -/

/-- C6: when the capture facility is available, `startListening` first
cancels any in-progress synthesis playback (the pause, if any, is the first
action of the trace) and then sets the listening flag and starts the
recognizer; afterwards the session is listening with no current audio, so
listening and speaking are not active together. -/
theorem startListening_preempts_speaking (st : SessionState)
    (h : st.recognitionAvailable = true) :
    (startListening st).1.isListening = true ∧
    (startListening st).1.audioRef = none ∧
    (startListening st).2
      = (match st.audioRef with
          | some a => [Event.pauseAudio a]
          | none => [])
        ++ [Event.setListening true, Event.listenStart] := by
  unfold startListening stopSpeaking
  obtain ⟨ms, ld, ls, key, aref, na, ra, ts, n⟩ := st
  cases aref <;> simp_all

/-- Witness for C6 at the concrete speaking state. -/
theorem startListening_preempts_speaking_witness :
    speakingState.recognitionAvailable = true ∧
    ((startListening speakingState).1.isListening = true ∧
     (startListening speakingState).1.audioRef = none ∧
     (startListening speakingState).2
       = (match speakingState.audioRef with
           | some a => [Event.pauseAudio a]
           | none => [])
         ++ [Event.setListening true, Event.listenStart]) :=
  ⟨by decide, startListening_preempts_speaking speakingState (by decide)⟩

/-! ## Claim C7 -/

/-- C7 counterexample: with no credential, speaking is a silent early
return and the microphone button is disabled: neither path changes any
state, and crucially neither surfaces a warning toast, refuting "degrade to
no-ops with a surfaced warning". -/
theorem noKey_no_warning :
    noKeyState.apiKey = "" ∧
    speakMessageIssue "hello" noKeyState = (noKeyState, []) ∧
    micClick ⟨noKeyState, "hello"⟩ = (⟨noKeyState, "hello"⟩, []) ∧
    (speakMessageIssue "hello" noKeyState).1.toasts = [] ∧
    (micClick ⟨noKeyState, "hello"⟩).1.session.toasts = [] := by
  decide

/-- C7 amended: with the credential absent, synthesis and capture degrade
to silent no-ops: `speakMessage` returns before doing anything, and the
microphone control is disabled so capture is never started and LISTENING is
never entered; no warning about the missing credential is surfaced by
either path (the only warnings in the code concern an unsupported
recognizer, capture errors and playback failures). -/
theorem noKey_silent_noops (t : String) (st : SessionState)
    (cs : ComponentState) (h : st.apiKey = "")
    (h2 : cs.session.apiKey = "") :
    speakMessageIssue t st = (st, []) ∧ micClick cs = (cs, []) := by
  constructor
  · unfold speakMessageIssue
    simp [h]
  · unfold micClick
    have hd : micButtonDisabled cs := Or.inr h2
    simp [hd]

/-- Witness for the amended C7 at the concrete credential-less state. -/
theorem noKey_silent_noops_witness :
    noKeyState.apiKey = "" ∧
    (⟨noKeyState, "m"⟩ : ComponentState).session.apiKey = "" ∧
    (speakMessageIssue "t" noKeyState = (noKeyState, []) ∧
     micClick ⟨noKeyState, "m"⟩ = (⟨noKeyState, "m"⟩, [])) :=
  ⟨by decide, by decide,
   noKey_silent_noops "t" noKeyState ⟨noKeyState, "m"⟩ (by decide) (by decide)⟩

/-! ## Claim C1 -/

/-- C1 counterexample: issue a synthesis request with a credential present,
run `stopSpeaking` while the request is in flight, then let the response
resolve: the late-arriving completion is installed as the current audio and
played, not discarded — refuting the claim that a stopped call's completion
never plays audio or changes state. -/
theorem stale_completion_plays :
    Event.issueSynthesis "hello" ∈ (speakMessageIssue "hello" keyState).2 ∧
    (speakMessageResolve true
        (stopSpeaking (speakMessageIssue "hello" keyState).1).1).1.audioRef
      = some 7 ∧
    Event.playAudio 7
      ∈ (speakMessageResolve true
          (stopSpeaking (speakMessageIssue "hello" keyState).1).1).2 := by
  decide

/-- C1 amended: `stopSpeaking` only pauses and releases the currently held
audio object; it does not detach in-flight synthesis requests. For every
state with a credential, in the interleaving issue → stop → resolve the
late-arriving completion is installed as the current audio object and
played (the code performs no generation tagging or staleness check). -/
theorem stale_completion_installed (st : SessionState)
    (h : st.apiKey ≠ "") :
    Event.issueSynthesis "x" ∈ (speakMessageIssue "x" st).2 ∧
    (speakMessageResolve true
        (stopSpeaking (speakMessageIssue "x" st).1).1).1.audioRef
      = some st.nextAudio ∧
    Event.playAudio st.nextAudio
      ∈ (speakMessageResolve true
          (stopSpeaking (speakMessageIssue "x" st).1).1).2 := by
  have hfst := speakMessageIssue_fst "x" st h
  refine ⟨?_, ?_, ?_⟩
  · unfold speakMessageIssue
    simp [h]
  · simp [hfst, stopSpeaking_fst, speakMessageResolve]
  · simp [hfst, stopSpeaking_fst, speakMessageResolve]

/-- Witness for the amended C1 at the concrete credentialed state. -/
theorem stale_completion_installed_witness :
    keyState.apiKey ≠ "" ∧
    (Event.issueSynthesis "x" ∈ (speakMessageIssue "x" keyState).2 ∧
     (speakMessageResolve true
         (stopSpeaking (speakMessageIssue "x" keyState).1).1).1.audioRef
       = some keyState.nextAudio ∧
     Event.playAudio keyState.nextAudio
       ∈ (speakMessageResolve true
           (stopSpeaking (speakMessageIssue "x" keyState).1).1).2) :=
  ⟨by decide, stale_completion_installed keyState (by decide)⟩

/-! ## Claim C4 -/

/-- Session history driving the C4 counterexample: mount without a
credential, let the greeting effect run, set the credential (effect
re-runs and speaks the greeting), let the audio arrive, play and end,
then set the credential again. -/
def g1 : SessionState := (greetingEffect g0).1

/-- State after the first credential set. -/
def g2 : SessionState := (setApiKey "k" g1).1

/-- Greeting effect re-run after the first credential set. -/
def g3 : SessionState × List Event := greetingEffect g2

/-- State once the first synthesis response has arrived and plays. -/
def g4 : SessionState := (speakMessageResolve true g3.1).1

/-- State once that playback has completed naturally. -/
def g5 : SessionState := (audioOnEnded g4).1

/-- State after the credential is set a second time. -/
def g6 : SessionState := (setApiKey "k2" g5).1

/-- Greeting effect re-run after the second credential set. -/
def g7 : SessionState × List Event := greetingEffect g6

/-- C4 counterexample: the greeting is appended exactly once at creation
and the first credential set triggers its synthesis — but setting the
credential again after that playback has ended re-triggers synthesis of
the greeting a second time, refuting "setting the credential again
afterwards does not re-trigger synthesis". -/
theorem greeting_resynthesized :
    g1.messages = [⟨greetingText, Sender.bot, 0⟩] ∧
    g3.1.messages = g1.messages ∧
    Event.issueSynthesis greetingText ∈ g3.2 ∧
    g7.1.messages = g1.messages ∧
    Event.issueSynthesis greetingText ∈ g7.2 := by
  decide

/-- C4 amended: the greeting turn is appended exactly once, at session
creation, with or without a credential; while the greeting is the only
turn, every credential set finding no current audio object triggers
synthesis of the greeting — so a second set re-triggers it once the first
playback has ended — and re-triggering is suppressed only while an audio
object is still held. -/
theorem greetingEffect_retrigger (st : SessionState) (m : ChatMessage)
    (hm : st.messages = [m]) (hk : st.apiKey ≠ "") :
    (greetingEffect st).1.messages = st.messages ∧
    (st.audioRef = none →
      (greetingEffect st).2 = [Event.issueSynthesis m.content]) ∧
    (st.audioRef ≠ none → greetingEffect st = (st, [])) := by
  refine ⟨?_, ?_, ?_⟩
  · unfold greetingEffect
    by_cases ha : st.audioRef = none <;>
      simp [hm, hk, ha, speakMessageIssue_msgs]
  · intro ha
    unfold greetingEffect speakMessageIssue
    simp [hm, hk, ha, stopSpeaking]
  · intro ha
    unfold greetingEffect
    simp [hm, hk, ha]

/-- Witness for the amended C4 at the concrete credentialed state. -/
theorem greetingEffect_retrigger_witness :
    keyState.messages = [⟨greetingText, Sender.bot, 0⟩] ∧
    keyState.apiKey ≠ "" ∧
    ((greetingEffect keyState).1.messages = keyState.messages ∧
     (keyState.audioRef = none →
       (greetingEffect keyState).2
         = [Event.issueSynthesis (ChatMessage.mk greetingText Sender.bot 0).content]) ∧
     (keyState.audioRef ≠ none → greetingEffect keyState = (keyState, []))) :=
  ⟨by decide, by decide,
   greetingEffect_retrigger keyState ⟨greetingText, Sender.bot, 0⟩
     (by decide) (by decide)⟩

/-! ## Claim C8 -/

/-- The operations of the session: every state transition the hook
performs, including effect runs, handlers and both phases of the
asynchronous calls. -/
inductive Op where
  | greeting
  | send (text : String) (outcome : Option String)
  | recogResult (utterance : String) (outcome : Option String)
  | recogEnd
  | recogError
  | stopSpeak
  | startListen
  | stopListen
  | speakIssue (text : String)
  | speakResolve (ok : Bool)
  | audioEnded
  | setKey (k : String)

/-- Dispatch an operation to its model. -/
def applyOp : Op → SessionState → SessionState × List Event
  | .greeting, st => greetingEffect st
  | .send t o, st => sendMessage t o st
  | .recogResult u o, st => recognitionOnResult u o st
  | .recogEnd, st => recognitionOnEnd st
  | .recogError, st => recognitionOnError st
  | .stopSpeak, st => stopSpeaking st
  | .startListen, st => startListening st
  | .stopListen, st => stopListening st
  | .speakIssue t, st => speakMessageIssue t st
  | .speakResolve ok, st => speakMessageResolve ok st
  | .audioEnded, st => audioOnEnded st
  | .setKey k, st => setApiKey k st

/-- C8: the transcript is append-only: every operation of the session
either leaves the message list unchanged or appends new turns at its end,
so previously appended turns are never modified, removed or reordered. -/
theorem transcript_append_only (op : Op) (st : SessionState) :
    ∃ suffix, (applyOp op st).1.messages = st.messages ++ suffix := by
  cases op with
  | greeting =>
    by_cases h : st.messages.length = 0
    · refine ⟨[⟨greetingText, Sender.bot, st.now⟩], ?_⟩
      have he : st.messages = [] := List.length_eq_zero.mp h
      by_cases hk : st.apiKey = "" <;>
        simp [applyOp, greetingEffect, h, hk, he, speakMessageIssue_msgs]
    · refine ⟨[], ?_⟩
      rcases hm : st.messages with _ | ⟨m, rest⟩
      · simp [hm] at h
      · by_cases hr : rest = [] <;> by_cases hk : st.apiKey = "" <;>
          by_cases ha : st.audioRef = none <;>
          simp [applyOp, greetingEffect, h, hm, hr, hk, ha,
                speakMessageIssue_msgs]
  | send t o =>
    exact ⟨_, sendMessage_msgs t o st⟩
  | recogResult u o =>
    exact ⟨_, sendMessage_msgs u o st⟩
  | recogEnd => exact ⟨[], by simp [applyOp, recognitionOnEnd]⟩
  | recogError => exact ⟨[], by simp [applyOp, recognitionOnError]⟩
  | stopSpeak => exact ⟨[], by simp [applyOp, stopSpeaking_fst]⟩
  | startListen =>
    refine ⟨[], ?_⟩
    unfold applyOp startListening
    by_cases h : st.recognitionAvailable = true <;>
      simp [h, stopSpeaking_fst]
  | stopListen =>
    refine ⟨[], ?_⟩
    unfold applyOp stopListening
    by_cases h : st.recognitionAvailable = true ∧ st.isListening = true <;>
      simp [h]
  | speakIssue t => exact ⟨[], by simp [applyOp, speakMessageIssue_msgs]⟩
  | speakResolve ok =>
    refine ⟨[], ?_⟩
    unfold applyOp speakMessageResolve
    cases ok <;> simp
  | audioEnded => exact ⟨[], by simp [applyOp, audioOnEnded]⟩
  | setKey k => exact ⟨[], by simp [applyOp, setApiKey]⟩
